import Mathlib

namespace MIRV

/-! Shallow embedding of MIR-V's symbolic memory/pointer layer: the type
layout subset of `src/src/expr/ty.rs` and the Z3 memory-space encoder of
`src/src/solvers/z3/z3_memspace.rs`.  Rust panics (`assert!`, `expect`,
`unwrap`, `todo!`) are modelled as `none` / `Except.error`. -/

/-- The rigid type grammar behind `Type` (the wrapper around a stable MIR
`Ty`), restricted to the constructors this layer inspects.  An ADT of
struct kind carries its trimmed name, whether it is the `Box` ADT, and its
field list (field name, field type); enums keep only their name.  Integer
types carry their lowercase name (`"i32"`, `"u16"`, ...). -/
inductive Ty where
  | bool
  | char
  | int (name : String)
  | uint (name : String)
  | tuple (elems : List Ty)
  | array (elem : Ty) (size : Nat)
  | slice (elem : Ty)
  | rawPtr (pointee : Ty)
  | ref (pointee : Ty)
  | adtStruct (name : String) (isBox : Bool) (fields : List (String × Ty))
  | adtEnum (name : String)
  | never

mutual

/-- Structural equality on types (the wrapper derives `PartialEq`/`Eq`). -/
def Ty.beq : Ty → Ty → Bool
  | .bool, .bool => true
  | .char, .char => true
  | .int a, .int b => a == b
  | .uint a, .uint b => a == b
  | .tuple ts, .tuple us => Ty.beq_elems ts us
  | .array t n, .array u m => Ty.beq t u && n == m
  | .slice t, .slice u => Ty.beq t u
  | .rawPtr t, .rawPtr u => Ty.beq t u
  | .ref t, .ref u => Ty.beq t u
  | .adtStruct n b fs, .adtStruct n2 b2 gs => n == n2 && b == b2 && Ty.beq_fields fs gs
  | .adtEnum n, .adtEnum n2 => n == n2
  | .never, .never => true
  | _, _ => false

/-- Pointwise equality of field lists. -/
def Ty.beq_fields : List (String × Ty) → List (String × Ty) → Bool
  | [], [] => true
  | (n, t) :: fs, (m, u) :: gs => n == m && Ty.beq t u && Ty.beq_fields fs gs
  | _, _ => false

/-- Pointwise equality of element lists. -/
def Ty.beq_elems : List Ty → List Ty → Bool
  | [], [] => true
  | t :: ts, u :: us => Ty.beq t u && Ty.beq_elems ts us
  | _, _ => false

end

instance : BEq Ty := ⟨Ty.beq⟩

/-- `is_unit`: the unit type is the empty tuple (`Ty::new_tuple(&[])`). -/
def Ty.is_unit : Ty → Bool
  | .tuple [] => true
  | _ => false

/-- `is_bool`. -/
def Ty.is_bool : Ty → Bool
  | .bool => true
  | _ => false

/-- `is_integer`: `kind().is_integral()`, signed or unsigned. -/
def Ty.is_integer : Ty → Bool
  | .int _ => true
  | .uint _ => true
  | _ => false

/-- `is_array`. -/
def Ty.is_array : Ty → Bool
  | .array _ _ => true
  | _ => false

/-- `is_slice`. -/
def Ty.is_slice : Ty → Bool
  | .slice _ => true
  | _ => false

/-- `is_ref`. -/
def Ty.is_ref : Ty → Bool
  | .ref _ => true
  | _ => false

/-- `is_ptr`: a raw pointer. -/
def Ty.is_ptr : Ty → Bool
  | .rawPtr _ => true
  | _ => false

/-- `is_box`: `kind().is_box()`, true for the `Box` ADT only. -/
def Ty.is_box : Ty → Bool
  | .adtStruct _ b _ => b
  | _ => false

/-- `is_tuple`. -/
def Ty.is_tuple : Ty → Bool
  | .tuple _ => true
  | _ => false

/-- Model of `self.0.kind().is_struct()`: an `Adt` of struct kind (this
includes `Box`, which is a struct ADT in MIR). -/
def Ty.kind_is_struct : Ty → Bool
  | .adtStruct _ _ _ => true
  | _ => false

mutual

/-- `name`: the display name the source builds for a type; an ADT reports
its trimmed name. -/
def Ty.name : Ty → String
  | .bool => "bool"
  | .char => "char"
  | .int i => i
  | .uint u => u
  | .adtStruct n _ _ => n
  | .adtEnum n => n
  | .array t _ => "Array(" ++ Ty.name t ++ ")"
  | .slice t => "Slice(" ++ Ty.name t ++ ")"
  | .rawPtr t => "Ptr(" ++ Ty.name t ++ ")"
  | .ref t => "Ref(" ++ Ty.name t ++ ")"
  | .never => "never"
  | .tuple [] => "unit"
  | .tuple (t :: ts) => "_tuple" ++ Ty.name_list (t :: ts)

/-- The suffix the source appends for each tuple element's name. -/
def Ty.name_list : List Ty → String
  | [] => ""
  | t :: ts => "_" ++ Ty.name t ++ Ty.name_list ts

end

/-- `is_layout`: the trimmed name is `"Layout"`. -/
def Ty.is_layout (t : Ty) : Bool := t.name == "Layout"

/-- `is_struct`: a struct-kind ADT that is neither `Box` nor named
`"Layout"`. -/
def Ty.is_struct (t : Ty) : Bool := t.kind_is_struct && !t.is_box && !t.is_layout

/-- `is_any_ptr`: `Box` is also a pointer by the source's semantics. -/
def Ty.is_any_ptr (t : Ty) : Bool := t.is_ref || t.is_ptr || t.is_box

/-- `array_size`: the outer `none` models the `assert!(is_array)` panic; the
inner option is the source's return value, `none` exactly when the declared
length is 0 (the sentinel for unsized arrays). -/
def Ty.array_size : Ty → Option (Option Nat)
  | .array _ n => some (if n = 0 then none else some n)
  | _ => none

/-- `struct_def`: `none` models the `assert!(is_struct)` and the
`assert!(!def.1.is_empty())` panics; otherwise the struct's trimmed name
with its ordered field list. -/
def Ty.struct_def (t : Ty) : Option (String × List (String × Ty)) :=
  match t with
  | .adtStruct n b fs =>
    if (Ty.adtStruct n b fs).is_struct then
      if fs.isEmpty then none else some (n, fs)
    else none
  | _ => none

/-- `tuple_def`: `none` models the non-tuple panic. -/
def Ty.tuple_def : Ty → Option (List Ty)
  | .tuple ts => some ts
  | _ => none

mutual

/-- `num_fields`: the field-level size.  The source checks, in order:
`is_unit` (0), `is_bool || is_integer || is_any_ptr` (1, so a `Box` counts
as a pointer before the struct check), `is_array`
(`array_size().unwrap()`, panicking on the sizeless sentinel), `is_struct`
(the sum over `struct_def`'s fields, which asserts a non-empty list),
`is_tuple` (the sum over the elements), and otherwise hits `todo!()`.
`none` models every panic. -/
def Ty.num_fields : Ty → Option Nat
  | .tuple [] => some 0
  | .bool => some 1
  | .int _ => some 1
  | .uint _ => some 1
  | .rawPtr _ => some 1
  | .ref _ => some 1
  | .array _ n => if n = 0 then none else some n
  | .adtStruct n b fs =>
    if b then some 1
    else if n == "Layout" then none
    else if fs.isEmpty then none
    else Ty.num_fields_fields fs
  | .tuple (t :: ts) => Ty.num_fields_elems (t :: ts)
  | _ => none

/-- The fold over a struct's fields in `num_fields` (a field whose own count
panics propagates the panic). -/
def Ty.num_fields_fields : List (String × Ty) → Option Nat
  | [] => some 0
  | (_, t) :: fs =>
    match Ty.num_fields t, Ty.num_fields_fields fs with
    | some a, some b => some (a + b)
    | _, _ => none

/-- The fold over a tuple's elements in `num_fields`. -/
def Ty.num_fields_elems : List Ty → Option Nat
  | [] => some 0
  | t :: ts =>
    match Ty.num_fields t, Ty.num_fields_elems ts with
    | some a, some b => some (a + b)
    | _, _ => none

end

/-- Model of the Z3 integer-sorted terms this layer builds: uninterpreted
constants (`mk_int_symbol`), literals (`mk_smt_int`) and sums (`mk_add`). -/
inductive ITerm where
  | const (name : String)
  | lit (n : Int)
  | add (a b : ITerm)
deriving DecidableEq

/-- Model of the Z3 boolean-sorted terms this layer asserts: `mk_gt`,
`mk_le`, `mk_or`, `mk_implies`, and the liveness array's `select`. -/
inductive BTerm where
  | gt (a b : ITerm)
  | le (a b : ITerm)
  | or (a b : BTerm)
  | implies (a b : BTerm)
  | select (arr : String) (idx : ITerm)
deriving DecidableEq

/-- How Z3 displays an integer term (`b.to_string()` in the source); only
the constant case is ever reached by the source's comparison
`space_base == NString::from(b.to_string())`, since stored bases are
constants. -/
def ITerm.render : ITerm → String
  | .const n => n
  | .lit n => toString n
  | .add a b => "(+ " ++ a.render ++ " " ++ b.render ++ ")"

/-- Value of an integer term in a model `σ` of the integer constants. -/
def ITerm.eval (σ : String → Int) : ITerm → Int
  | .const n => σ n
  | .lit n => n
  | .add a b => a.eval σ + b.eval σ

/-- Value of a boolean term in a model: `σ` interprets the integer
constants, `α` the boolean-valued arrays (the liveness context). -/
def BTerm.eval (σ : String → Int) (α : String → Int → Bool) : BTerm → Bool
  | .gt a b => decide (b.eval σ < a.eval σ)
  | .le a b => decide (a.eval σ ≤ b.eval σ)
  | .or a b => a.eval σ α || b.eval σ α
  | .implies a b => !a.eval σ α || b.eval σ α
  | .select arr i => α arr (i.eval σ)

/-- Modelled from the spec: the repository's `Expr` (`src/src/expr/expr.rs`
is not among the staged sources).  Only symbol expressions reach this
layer: a symbol carries its l0 identifier (`extract_symbol().ident()`) and
its program type (`object.ty()`). -/
structure Expr where
  ident : String
  ty : Ty

instance : BEq Expr := ⟨fun a b => a.ident == b.ident && Ty.beq a.ty b.ty⟩

/-- Modelled from the spec: the slice of `Z3Conv` state this layer touches —
the registry `pointer_logic`'s object spaces (kept in registration order as
`(object, (base, len))` entries), the shared solver assertion set, and the
optional allocation-liveness array term `cur_alloc_expr` (kept as the
array's name). -/
structure Z3Conv where
  object_spaces : List (Expr × ITerm × ITerm)
  assertions : List BTerm
  cur_alloc_expr : Option String

/-- Modelled from the spec: `pointer_logic.contains(object)`. -/
def contains (s : Z3Conv) (o : Expr) : Bool :=
  s.object_spaces.any (fun p => p.1 == o)

/-- Modelled from the spec: `pointer_logic.get_object_space_base(object)`;
`none` models the registry's panic on an unregistered object. -/
def get_object_space_base (s : Z3Conv) (o : Expr) : Option ITerm :=
  (s.object_spaces.find? (fun p => p.1 == o)).map (fun p => p.2.1)

/-- Modelled from the spec: `self.assert(f)` adds `f` to the shared solver
assertion set. -/
def smt_assert (s : Z3Conv) (f : BTerm) : Z3Conv :=
  { s with assertions := f :: s.assertions }

/-- Modelled from the spec:
`pointer_logic.set_object_space(object, (base, len))` records the new
space for a not-yet-registered object. -/
def set_object_space (s : Z3Conv) (o : Expr) (base len : ITerm) : Z3Conv :=
  { s with object_spaces := s.object_spaces ++ [(o, base, len)] }

/-- One turn of `init_pointer_space`'s disjointness loop over a previously
registered space `p = (_, (b, l))`: skip when the stored base prints as the
new base's name (an object is never checked against itself); skip when no
allocation-liveness context is set; otherwise assert
`alive ⇒ (base + len ≤ b) ∨ (b + l ≤ base)` with
`alive = cur_alloc_expr[b]`. -/
def disj_step (space_base : String) (base len : ITerm) (st : Z3Conv)
    (p : Expr × ITerm × ITerm) : Z3Conv :=
  if space_base == p.2.1.render then st
  else
    match st.cur_alloc_expr with
    | none => st
    | some arr =>
      let alive := BTerm.select arr p.2.1
      let r1 := ITerm.add base len
      let r2 := ITerm.add p.2.1 p.2.2
      let no_overlap := BTerm.or (BTerm.le r1 p.2.1) (BTerm.le r2 base)
      smt_assert st (BTerm.implies alive no_overlap)

/-- The field-level sizing block of `init_pointer_space` (inline in the
source): a struct is sized by its declared field-list length, a fixed
array by its element count (`expect`ing a size, so the unsized sentinel
panics), anything else by 1. -/
def space_len_of (t : Ty) : Except String Nat :=
  if t.is_struct then
    match t.struct_def with
    | some d => .ok d.2.length
    | none => .error ("struct_def assertion failed")
  else if t.is_array then
    match t.array_size with
    | some (some n) => .ok n
    | some none => .error ("Array must have size")
    | none => .error ("array_size assertion failed")
  else .ok 1

/-- `init_pointer_space` (z3_memspace.rs): name the fresh base from the
object's identifier, size the space via `space_len_of`, assert positivity
of the base, run the disjointness loop over every previously registered
space, and store the new `(base, len)`.  `Except.error` models the
function's `assert!`/`expect` panics. -/
def init_pointer_space (s : Z3Conv) (object : Expr) : Except String Z3Conv :=
  if contains s object then .error ("assert failed: object already registered")
  else
    let space_base := object.ident ++ "_base"
    match space_len_of object.ty with
    | .error e => .error e
    | .ok space_len =>
      let base := ITerm.const space_base
      let len := ITerm.lit (Int.ofNat space_len)
      let s1 := smt_assert s (BTerm.gt base (ITerm.lit 0))
      let s2 := s.object_spaces.foldl (disj_step space_base base len) s1
      .ok (set_object_space s2 object base len)

/-- `create_object_space` (z3_memspace.rs): idempotent registration by
identifier — an already-registered object's stored base is returned with
the state untouched; otherwise the space is initialized first. -/
def create_object_space (s : Z3Conv) (object : Expr) :
    Except String (ITerm × Z3Conv) :=
  if contains s object then
    match get_object_space_base s object with
    | some b => .ok (b, s)
    | none => .error ("registry lookup failed")
  else
    match init_pointer_space s object with
    | .error e => .error e
    | .ok s' =>
      match get_object_space_base s' object with
      | some b => .ok (b, s')
      | none => .error ("registry lookup failed")

/-- The Z3 datatype value of sort `pointer` declared in
`set_pointer_logic`: one constructor with the three integer fields `base`,
`offset`, `meta`. -/
structure PointerValue where
  base : ITerm
  offset : ITerm
  meta : ITerm
deriving DecidableEq

/-- `mk_pointer`: applies the `pointer` constructor; the metadata defaults
to the integer literal 0 when absent. -/
def mk_pointer (base offset : ITerm) (meta : Option ITerm) : PointerValue :=
  { base := base, offset := offset,
    meta :=
      match meta with
      | some x => x
      | none => ITerm.lit 0 }

/-- `mk_pointer_base`: the `pointer` datatype's `base` accessor. -/
def mk_pointer_base (pt : PointerValue) : ITerm := pt.base

/-- `mk_pointer_offset`: the `pointer` datatype's `offset` accessor. -/
def mk_pointer_offset (pt : PointerValue) : ITerm := pt.offset

/-- `mk_pointer_meta`: the `pointer` datatype's `meta` accessor. -/
def mk_pointer_meta (pt : PointerValue) : ITerm := pt.meta

/-- Modelled from the spec: the states the symbolic-execution driver can put
this layer in — a fresh conversion context, then any interleaving of
registrations (`create_object_space`) with the driver (re)setting the
allocation-liveness context. -/
inductive Reachable : Z3Conv → Prop where
  | init : Reachable ⟨[], [], none⟩
  | create {s : Z3Conv} {o : Expr} {b : ITerm} {s' : Z3Conv} :
      Reachable s → create_object_space s o = .ok (b, s') → Reachable s'
  | set_alloc {s : Z3Conv} (a : Option String) :
      Reachable s → Reachable { s with cur_alloc_expr := a }

/-- The stored length term for `o` after a registration attempt. -/
def registeredLen (r : Except String Z3Conv) (o : Expr) : Option ITerm :=
  match r with
  | .ok s => (s.object_spaces.find? (fun p => p.1 == o)).map (fun p => p.2.2)
  | .error _ => none

/-- The §8 scenario struct `{lo: u16, hi: [u8; 3]}`. -/
def sTy : Ty :=
  Ty.adtStruct ("S") false [("lo", Ty.uint ("u16")), ("hi", Ty.array (Ty.uint ("u8")) 3)]

/-- The scenario object `x` of type `sTy`. -/
def xObj : Expr := { ident := "x", ty := sTy }

/-- A second object of primitive integer type. -/
def yObj : Expr := { ident := "y", ty := Ty.int ("i32") }

/-- An object whose type is an array of declared length 0 (the unsized
sentinel). -/
def zeroArrObj : Expr := { ident := "z", ty := Ty.array (Ty.uint ("u8")) 0 }

/-- A fresh conversion context: nothing registered, nothing asserted, no
allocation-liveness context. -/
def emptyConv : Z3Conv := { object_spaces := [], assertions := [], cur_alloc_expr := none }

/-- The state after registering `yObj` in a fresh context. -/
def s1c : Z3Conv :=
  { object_spaces := [(yObj, ITerm.const ("y_base"), ITerm.lit 1)],
    assertions := [BTerm.gt (ITerm.const ("y_base")) (ITerm.lit 0)],
    cur_alloc_expr := none }

/-- A state with `xObj`'s space registered (length 4) and an
allocation-liveness context set. -/
def s0c : Z3Conv :=
  { object_spaces := [(xObj, ITerm.const ("x_base"), ITerm.lit 4)],
    assertions := [],
    cur_alloc_expr := some ("alloc") }

/-- The state after registering `yObj` in `s0c`: positivity for the fresh
base plus the liveness-conditioned disjointness constraint against
`xObj`'s space. -/
def s2c : Z3Conv :=
  { object_spaces := [(xObj, ITerm.const ("x_base"), ITerm.lit 4),
                      (yObj, ITerm.const ("y_base"), ITerm.lit 1)],
    assertions :=
      [BTerm.implies (BTerm.select ("alloc") (ITerm.const ("x_base")))
         (BTerm.or
           (BTerm.le (ITerm.add (ITerm.const ("y_base")) (ITerm.lit 1))
             (ITerm.const ("x_base")))
           (BTerm.le (ITerm.add (ITerm.const ("x_base")) (ITerm.lit 4))
             (ITerm.const ("y_base")))),
       BTerm.gt (ITerm.const ("y_base")) (ITerm.lit 0)],
    cur_alloc_expr := some ("alloc") }

/-- The state after registering the struct object `xObj` in a fresh
context: length 2 (its declared field count) and only the positivity
assertion. -/
def s3c : Z3Conv :=
  { object_spaces := [(xObj, ITerm.const ("x_base"), ITerm.lit 2)],
    assertions := [BTerm.gt (ITerm.const ("x_base")) (ITerm.lit 0)],
    cur_alloc_expr := none }

/-- The well-typed program types on which `num_fields` actually returns a
value: unit, bool, integers, pointer-like types (including `Box`),
fixed-size arrays of nonzero declared length, non-`Layout` structs with a
non-empty field list of such types, and tuples of such types.  Slices,
enums, `char`, function types, `never` and `Layout`-named structs fall to
`todo!()`. -/
inductive TotalTy : Ty → Prop where
  | unit : TotalTy (Ty.tuple [])
  | bool : TotalTy Ty.bool
  | int (n : String) : TotalTy (Ty.int n)
  | uint (n : String) : TotalTy (Ty.uint n)
  | rawPtr (t : Ty) : TotalTy (Ty.rawPtr t)
  | ref (t : Ty) : TotalTy (Ty.ref t)
  | box (n : String) (fs : List (String × Ty)) : TotalTy (Ty.adtStruct n true fs)
  | array (t : Ty) (k : Nat) : k ≠ 0 → TotalTy (Ty.array t k)
  | strct (n : String) (fs : List (String × Ty)) :
      n ≠ "Layout" → fs ≠ [] → (∀ f ∈ fs, TotalTy f.2) →
      TotalTy (Ty.adtStruct n false fs)
  | tuple (ts : List Ty) : (∀ t ∈ ts, TotalTy t) → TotalTy (Ty.tuple ts)

/-- Every registered space's base has its positivity assertion in the
solver's assertion set. -/
def basesPositive (s : Z3Conv) : Prop :=
  ∀ p ∈ s.object_spaces, BTerm.gt p.2.1 (ITerm.lit 0) ∈ s.assertions

/-! Supporting lemmas. -/

theorem smt_assert_spaces (s : Z3Conv) (f : BTerm) :
    (smt_assert s f).object_spaces = s.object_spaces := rfl

theorem smt_assert_assertions (s : Z3Conv) (f : BTerm) :
    (smt_assert s f).assertions = f :: s.assertions := rfl

theorem smt_assert_cur_alloc (s : Z3Conv) (f : BTerm) :
    (smt_assert s f).cur_alloc_expr = s.cur_alloc_expr := rfl

theorem set_object_space_spaces (s : Z3Conv) (o : Expr) (b l : ITerm) :
    (set_object_space s o b l).object_spaces = s.object_spaces ++ [(o, b, l)] := rfl

theorem set_object_space_assertions (s : Z3Conv) (o : Expr) (b l : ITerm) :
    (set_object_space s o b l).assertions = s.assertions := rfl

mutual

theorem Ty.beq_refl : ∀ t : Ty, Ty.beq t t = true
  | .bool => rfl
  | .char => rfl
  | .int a => by simp [Ty.beq]
  | .uint a => by simp [Ty.beq]
  | .tuple ts => by simp [Ty.beq, Ty.beq_elems_refl ts]
  | .array t n => by simp [Ty.beq, Ty.beq_refl t]
  | .slice t => by simp [Ty.beq, Ty.beq_refl t]
  | .rawPtr t => by simp [Ty.beq, Ty.beq_refl t]
  | .ref t => by simp [Ty.beq, Ty.beq_refl t]
  | .adtStruct n b fs => by simp [Ty.beq, Ty.beq_fields_refl fs]
  | .adtEnum n => by simp [Ty.beq]
  | .never => rfl

theorem Ty.beq_fields_refl : ∀ fs : List (String × Ty), Ty.beq_fields fs fs = true
  | [] => rfl
  | (n, t) :: fs => by simp [Ty.beq_fields, Ty.beq_refl t, Ty.beq_fields_refl fs]

theorem Ty.beq_elems_refl : ∀ ts : List Ty, Ty.beq_elems ts ts = true
  | [] => rfl
  | t :: ts => by simp [Ty.beq_elems, Ty.beq_refl t, Ty.beq_elems_refl ts]

end

theorem Expr.beq_self (e : Expr) : (e == e) = true := by
  show (e.ident == e.ident && Ty.beq e.ty e.ty) = true
  simp [Ty.beq_refl]

theorem disj_step_cur_alloc (sb : String) (base len : ITerm) (st : Z3Conv)
    (p : Expr × ITerm × ITerm) :
    (disj_step sb base len st p).cur_alloc_expr = st.cur_alloc_expr := by
  unfold disj_step
  split
  · rfl
  · split <;> rfl

theorem disj_step_spaces (sb : String) (base len : ITerm) (st : Z3Conv)
    (p : Expr × ITerm × ITerm) :
    (disj_step sb base len st p).object_spaces = st.object_spaces := by
  unfold disj_step
  split
  · rfl
  · split <;> rfl

theorem mem_disj_step (sb : String) (base len : ITerm) (st : Z3Conv)
    (p : Expr × ITerm × ITerm) (f : BTerm) (h : f ∈ st.assertions) :
    f ∈ (disj_step sb base len st p).assertions := by
  unfold disj_step
  split
  · exact h
  · split
    · exact h
    · exact List.mem_cons_of_mem _ h

theorem foldl_disj_cur_alloc (sb : String) (base len : ITerm) :
    ∀ (l : List (Expr × ITerm × ITerm)) (st : Z3Conv),
      (l.foldl (disj_step sb base len) st).cur_alloc_expr = st.cur_alloc_expr
  | [], _ => rfl
  | p :: l, st => by
    rw [List.foldl_cons, foldl_disj_cur_alloc sb base len l, disj_step_cur_alloc]

theorem foldl_disj_spaces (sb : String) (base len : ITerm) :
    ∀ (l : List (Expr × ITerm × ITerm)) (st : Z3Conv),
      (l.foldl (disj_step sb base len) st).object_spaces = st.object_spaces
  | [], _ => rfl
  | p :: l, st => by
    rw [List.foldl_cons, foldl_disj_spaces sb base len l, disj_step_spaces]

theorem mem_foldl_disj (sb : String) (base len : ITerm) (f : BTerm) :
    ∀ (l : List (Expr × ITerm × ITerm)) (st : Z3Conv), f ∈ st.assertions →
      f ∈ (l.foldl (disj_step sb base len) st).assertions
  | [], _, h => h
  | p :: l, st, h => by
    rw [List.foldl_cons]
    exact mem_foldl_disj sb base len f l _ (mem_disj_step sb base len st p f h)

/-- With a liveness context set, the disjointness loop asserts the
conditional non-overlap constraint against every previously registered
space whose base prints differently from the new base's name. -/
theorem foldl_disj_emits (sb : String) (base len : ITerm) (arr : String)
    (o : Expr) (b l : ITerm) :
    ∀ (sp : List (Expr × ITerm × ITerm)) (st : Z3Conv),
      st.cur_alloc_expr = some arr → (o, b, l) ∈ sp → sb ≠ b.render →
      BTerm.implies (BTerm.select arr b)
          (BTerm.or (BTerm.le (ITerm.add base len) b) (BTerm.le (ITerm.add b l) base))
        ∈ (sp.foldl (disj_step sb base len) st).assertions
  | p :: sp, st, halloc, hmem, hne => by
    rw [List.foldl_cons]
    rcases List.mem_cons.mp hmem with heq | hmem'
    · subst heq
      have hb : (sb == b.render) = false := beq_eq_false_iff_ne.mpr hne
      have hstep :
          BTerm.implies (BTerm.select arr b)
              (BTerm.or (BTerm.le (ITerm.add base len) b) (BTerm.le (ITerm.add b l) base))
            ∈ (disj_step sb base len st (o, b, l)).assertions := by
        simp [disj_step, hb, halloc, smt_assert]
      exact mem_foldl_disj sb base len _ sp _ hstep
    · exact foldl_disj_emits sb base len arr o b l sp (disj_step sb base len st p)
        (by rw [disj_step_cur_alloc]; exact halloc) hmem' hne

/-- With no liveness context, the disjointness loop is the identity on the
solver state. -/
theorem disj_step_none (sb : String) (base len : ITerm) (st : Z3Conv)
    (p : Expr × ITerm × ITerm) (halloc : st.cur_alloc_expr = none) :
    disj_step sb base len st p = st := by
  unfold disj_step
  rw [halloc]
  split <;> rfl

theorem foldl_disj_none (sb : String) (base len : ITerm) :
    ∀ (l : List (Expr × ITerm × ITerm)) (st : Z3Conv), st.cur_alloc_expr = none →
      l.foldl (disj_step sb base len) st = st
  | [], _, _ => rfl
  | p :: l, st, h => by
    rw [List.foldl_cons, disj_step_none sb base len st p h, foldl_disj_none sb base len l st h]

/-- A successful `init_pointer_space` run, characterized: the result is the
input state with the positivity assertion added, the disjointness loop run,
and the new `(base, len)` space appended; the length is the struct's
declared field-list length, the array's element count, or 1. -/
theorem init_ok_spec (s : Z3Conv) (object : Expr) (s' : Z3Conv)
    (h : init_pointer_space s object = .ok s') :
    ∃ n : Nat,
      s' = set_object_space
            (s.object_spaces.foldl
              (disj_step (object.ident ++ "_base") (ITerm.const (object.ident ++ "_base"))
                (ITerm.lit (Int.ofNat n)))
              (smt_assert s (BTerm.gt (ITerm.const (object.ident ++ "_base")) (ITerm.lit 0))))
            object (ITerm.const (object.ident ++ "_base")) (ITerm.lit (Int.ofNat n)) ∧
      (object.ty.is_struct = true →
        ∃ d, object.ty.struct_def = some d ∧ n = d.2.length) ∧
      (object.ty.is_struct = false → object.ty.is_array = false → n = 1) := by
  simp only [init_pointer_space] at h
  split at h
  · cases h
  · split at h
    · cases h
    · rename_i n heq
      refine ⟨n, ((Except.ok.injEq _ _).mp h).symm, ?_, ?_⟩
      · intro hstruct
        unfold space_len_of at heq
        rw [if_pos hstruct] at heq
        split at heq
        · rename_i d hd
          exact ⟨d, hd, ((Except.ok.injEq _ _).mp heq).symm⟩
        · cases heq
      · intro h1 h2
        unfold space_len_of at heq
        rw [if_neg (by simp [h1]), if_neg (by simp [h2])] at heq
        exact ((Except.ok.injEq _ _).mp heq).symm

/-- `struct_def` answers only on types satisfying `is_struct`. -/
theorem Ty.struct_def_is_struct {t : Ty} {d : String × List (String × Ty)}
    (h : t.struct_def = some d) : t.is_struct = true := by
  unfold Ty.struct_def at h
  split at h
  · rename_i n b fs
    split at h
    · assumption
    · cases h
  · cases h

theorem init_basesPositive {s s' : Z3Conv} {object : Expr}
    (h : init_pointer_space s object = .ok s') (hb : basesPositive s) :
    basesPositive s' := by
  obtain ⟨n, hs', -, -⟩ := init_ok_spec s object s' h
  subst hs'
  intro p hp
  rw [set_object_space_assertions]
  rw [set_object_space_spaces, foldl_disj_spaces, smt_assert_spaces] at hp
  rcases List.mem_append.mp hp with hin | hnew
  · exact mem_foldl_disj _ _ _ _ _ _
      (by rw [smt_assert_assertions]; exact List.mem_cons_of_mem _ (hb p hin))
  · rw [List.mem_singleton.mp hnew]
    exact mem_foldl_disj _ _ _ _ _ _
      (by rw [smt_assert_assertions]; exact List.mem_cons_self _ _)

theorem create_basesPositive {s s' : Z3Conv} {object : Expr} {b : ITerm}
    (h : create_object_space s object = .ok (b, s')) (hb : basesPositive s) :
    basesPositive s' := by
  unfold create_object_space at h
  split at h
  · split at h
    · have hs : s = s' := congrArg Prod.snd ((Except.ok.injEq _ _).mp h)
      rw [← hs]
      exact hb
    · cases h
  · split at h
    · cases h
    · rename_i s1 hinit
      split at h
      · have hs : s1 = s' := congrArg Prod.snd ((Except.ok.injEq _ _).mp h)
        rw [← hs]
        exact init_basesPositive hinit hb
      · cases h

theorem reachable_basesPositive {s : Z3Conv} (h : Reachable s) : basesPositive s := by
  induction h with
  | init => intro p hp; cases hp
  | create _ hc ih => exact create_basesPositive hc ih
  | set_alloc a _ ih => intro p hp; exact ih p hp

theorem registeredLen_ok (s : Z3Conv) (o : Expr) :
    registeredLen (.ok s) o
      = (s.object_spaces.find? (fun p => p.1 == o)).map (fun p => p.2.2) := rfl

/-- Registering a fresh object in a fresh context stores the length that
`space_len_of` computes from its type. -/
theorem init_empty_len (object : Expr) (n : Nat)
    (hlen : space_len_of object.ty = .ok n) :
    registeredLen (init_pointer_space emptyConv object) object
      = some (ITerm.lit (Int.ofNat n)) := by
  simp [init_pointer_space, contains, hlen, registeredLen, set_object_space,
        smt_assert, emptyConv, Expr.beq_self, List.find?]

theorem num_fields_fields_isSome :
    ∀ fs : List (String × Ty), (∀ f ∈ fs, (Ty.num_fields f.2).isSome = true) →
      (Ty.num_fields_fields fs).isSome = true
  | [], _ => rfl
  | (m, t) :: fs, h => by
    obtain ⟨a, ha⟩ := Option.isSome_iff_exists.mp (h (m, t) (List.mem_cons_self _ _))
    obtain ⟨c, hc⟩ := Option.isSome_iff_exists.mp
      (num_fields_fields_isSome fs (fun f hf => h f (List.mem_cons_of_mem _ hf)))
    simp [Ty.num_fields_fields, ha, hc]

theorem num_fields_elems_isSome :
    ∀ ts : List Ty, (∀ t ∈ ts, (Ty.num_fields t).isSome = true) →
      (Ty.num_fields_elems ts).isSome = true
  | [], _ => rfl
  | t :: ts, h => by
    obtain ⟨a, ha⟩ := Option.isSome_iff_exists.mp (h t (List.mem_cons_self _ _))
    obtain ⟨c, hc⟩ := Option.isSome_iff_exists.mp
      (num_fields_elems_isSome ts (fun u hu => h u (List.mem_cons_of_mem _ hu)))
    simp [Ty.num_fields_elems, ha, hc]

/-! The claims. -/

/-- C1 (counterexample): registering the §8 scenario struct
`{lo: u16, hi: [u8;3]}` stores length 2 — the declared field count, the
array field counting 1 — not the flattened scalar count 1 + 3 = 4 the
claim states. -/
theorem C1_counterexample :
    registeredLen (init_pointer_space emptyConv xObj) xObj = some (ITerm.lit 2) ∧
    ¬ registeredLen (init_pointer_space emptyConv xObj) xObj = some (ITerm.lit 4) := by
  decide

/-- C1 (amended): registering a symbolic object of struct type sizes its
address range by the struct's declared (top-level) field count — each
field counts 1 regardless of its own type — so the scenario struct
`{lo: u16, hi: [u8;3]}` yields length 2, not 4. -/
theorem C1_struct_sized_by_declared_field_count (object : Expr)
    (nm : String) (fs : List (String × Ty))
    (hdef : object.ty.struct_def = some (nm, fs)) :
    registeredLen (init_pointer_space emptyConv object) object
      = some (ITerm.lit (Int.ofNat fs.length)) := by
  refine init_empty_len object fs.length ?_
  unfold space_len_of
  rw [if_pos (Ty.struct_def_is_struct hdef), hdef]

/-- C1 witness: the scenario struct itself, registered length 2. -/
theorem C1_struct_sized_by_declared_field_count_witness :
    registeredLen (init_pointer_space emptyConv xObj) xObj = some (ITerm.lit 2) :=
  C1_struct_sized_by_declared_field_count xObj ("S")
    [("lo", Ty.uint ("u16")), ("hi", Ty.array (Ty.uint ("u8")) 3)] (by rfl)

/-- C2: with an allocation-liveness context set, registration asserts, for
every previously registered space `(b, l)` whose base prints differently
from the new base's name, the implication
`liveness[b] ⇒ (base + len ≤ b) ∨ (b + l ≤ base)` — conditional
non-overlap of the half-open ranges. -/
theorem C2_conditional_disjointness (s s' : Z3Conv) (object o : Expr)
    (arr : String) (b l : ITerm)
    (halloc : s.cur_alloc_expr = some arr)
    (hinit : init_pointer_space s object = .ok s')
    (hmem : (o, b, l) ∈ s.object_spaces)
    (hname : object.ident ++ "_base" ≠ b.render) :
    ∃ n : Nat,
      (object, ITerm.const (object.ident ++ "_base"), ITerm.lit (Int.ofNat n))
          ∈ s'.object_spaces ∧
      BTerm.implies (BTerm.select arr b)
          (BTerm.or
            (BTerm.le (ITerm.add (ITerm.const (object.ident ++ "_base"))
                (ITerm.lit (Int.ofNat n))) b)
            (BTerm.le (ITerm.add b l) (ITerm.const (object.ident ++ "_base"))))
        ∈ s'.assertions := by
  obtain ⟨n, hs', -, -⟩ := init_ok_spec s object s' hinit
  subst hs'
  refine ⟨n, ?_, ?_⟩
  · rw [set_object_space_spaces]
    exact List.mem_append_right _ (List.mem_singleton.mpr rfl)
  · rw [set_object_space_assertions]
    exact foldl_disj_emits _ _ _ arr o b l s.object_spaces _
      (by rw [smt_assert_cur_alloc]; exact halloc) hmem hname

/-- C2 witness: registering `y` while `x`'s length-4 space is live under
the context `alloc` asserts the conditional non-overlap constraint. -/
theorem C2_conditional_disjointness_witness :
    ∃ n : Nat,
      (yObj, ITerm.const (yObj.ident ++ "_base"), ITerm.lit (Int.ofNat n))
          ∈ s2c.object_spaces ∧
      BTerm.implies (BTerm.select ("alloc") (ITerm.const ("x_base")))
          (BTerm.or
            (BTerm.le (ITerm.add (ITerm.const (yObj.ident ++ "_base"))
                (ITerm.lit (Int.ofNat n))) (ITerm.const ("x_base")))
            (BTerm.le (ITerm.add (ITerm.const ("x_base")) (ITerm.lit 4))
              (ITerm.const (yObj.ident ++ "_base"))))
        ∈ s2c.assertions :=
  C2_conditional_disjointness s0c s2c yObj xObj ("alloc")
    (ITerm.const ("x_base")) (ITerm.lit 4) rfl (by rfl)
    (List.mem_cons_self _ _) (by decide)

/-- C3: with no allocation-liveness context set, registration adds only the
positivity assertion on the fresh base — no disjointness constraint is
emitted for any previously registered space. -/
theorem C3_no_context_no_disjointness (s s' : Z3Conv) (object : Expr)
    (halloc : s.cur_alloc_expr = none)
    (hinit : init_pointer_space s object = .ok s') :
    s'.assertions
      = BTerm.gt (ITerm.const (object.ident ++ "_base")) (ITerm.lit 0)
          :: s.assertions := by
  obtain ⟨n, hs', -, -⟩ := init_ok_spec s object s' hinit
  subst hs'
  rw [set_object_space_assertions,
      foldl_disj_none _ _ _ _ _ (by rw [smt_assert_cur_alloc]; exact halloc),
      smt_assert_assertions]

/-- C3 witness: registering the struct object in a fresh context (no
liveness context) yields exactly the positivity assertion. -/
theorem C3_no_context_no_disjointness_witness :
    s3c.assertions
      = BTerm.gt (ITerm.const (xObj.ident ++ "_base")) (ITerm.lit 0)
          :: emptyConv.assertions :=
  C3_no_context_no_disjointness emptyConv s3c xObj rfl (by rfl)

/-- C4 (counterexample): for the array `[[u8;3]; 2]` the code's
`num_fields` is the element count 2, not 2 × 3 = 6 as the claim's rule
`n × flattened_field_count(E)` demands. -/
theorem C4_counterexample :
    Ty.num_fields (Ty.array (Ty.array (Ty.uint ("u8")) 3) 2) = some 2 ∧
    Ty.num_fields (Ty.array (Ty.uint ("u8")) 3) = some 3 ∧
    ¬ Ty.num_fields (Ty.array (Ty.array (Ty.uint ("u8")) 3) 2) = some (2 * 3) := by
  decide

/-- C4 (amended): for a fixed-size array of nonzero declared length n,
`num_fields` is n — the element count alone, regardless of the element
type's own field count. -/
theorem C4_array_num_fields_is_count (e : Ty) (n : Nat) (h : n ≠ 0) :
    Ty.num_fields (Ty.array e n) = some n := by
  simp [Ty.num_fields, h]

/-- C4 witness: an array of 5 bytes counts 5 fields. -/
theorem C4_array_num_fields_is_count_witness :
    Ty.num_fields (Ty.array (Ty.uint ("u8")) 5) = some 5 :=
  C4_array_num_fields_is_count (Ty.uint ("u8")) 5 (by decide)

/-- C5: in every state the driver can reach, every registered base
evaluates strictly positive in every model satisfying the solver's
assertion set. -/
theorem C5_base_positive (s : Z3Conv) (hs : Reachable s) (o : Expr)
    (b l : ITerm) (hmem : (o, b, l) ∈ s.object_spaces)
    (σ : String → Int) (α : String → Int → Bool)
    (hsat : ∀ f ∈ s.assertions, BTerm.eval σ α f = true) :
    0 < ITerm.eval σ b := by
  have hb := reachable_basesPositive hs (o, b, l) hmem
  have hev := hsat _ hb
  simpa [BTerm.eval, ITerm.eval] using hev

/-- C5 witness: after registering `y` in a fresh context, `y_base`
evaluates positive in the all-ones model. -/
theorem C5_base_positive_witness :
    0 < ITerm.eval (fun _ => 1) (ITerm.const ("y_base")) :=
  C5_base_positive s1c
    (@Reachable.create emptyConv yObj (ITerm.const ("y_base")) s1c
      Reachable.init (by rfl)) yObj
    (ITerm.const ("y_base")) (ITerm.lit 1) (List.mem_cons_self _ _)
    (fun _ => 1) (fun _ _ => true) (by decide)

/-- C6: registering an already-registered object returns the stored base
with the state unchanged — no further solver assertions, no new space. -/
theorem C6_register_idempotent (s : Z3Conv) (o : Expr) (b : ITerm)
    (h : get_object_space_base s o = some b) :
    create_object_space s o = .ok (b, s) := by
  have hc : contains s o = true := by
    unfold get_object_space_base at h
    cases hf : s.object_spaces.find? (fun p => p.1 == o) with
    | none => rw [hf] at h; cases h
    | some q =>
      have hq := List.find?_some hf
      exact List.any_eq_true.mpr ⟨q, List.mem_of_find?_eq_some hf, hq⟩
  simp [create_object_space, hc, h]

/-- C6 witness: re-registering `y` returns its stored base and the very
same state. -/
theorem C6_register_idempotent_witness :
    create_object_space s1c yObj = .ok (ITerm.const ("y_base"), s1c) :=
  C6_register_idempotent s1c yObj (ITerm.const ("y_base")) (by rfl)

/-- C7 (counterexample): `num_fields` is not total on well-typed types —
a slice type and an enum type, neither among the enumerated fatal contract
violations, hit `todo!()` (modelled as `none`). -/
theorem C7_counterexample :
    Ty.num_fields (Ty.slice (Ty.uint ("u8"))) = none ∧
    Ty.num_fields (Ty.adtEnum ("E")) = none := by
  decide

/-- C7 (amended): `num_fields` is total exactly on the supported grammar
`TotalTy` (unit, bool, integers, pointer-like types, nonzero fixed arrays,
non-`Layout` structs with non-empty supported fields, tuples of supported
types); outside it — slices, enums, `char`, `never`, `Layout`-named
structs — the code panics via `todo!()`. -/
theorem C7_num_fields_total_on_grammar (t : Ty) (h : TotalTy t) :
    (Ty.num_fields t).isSome = true := by
  induction h with
  | unit => rfl
  | bool => rfl
  | int n => rfl
  | uint n => rfl
  | rawPtr t => rfl
  | ref t => rfl
  | box n fs => rfl
  | array t k hk => simp [Ty.num_fields, hk]
  | strct n fs hn hfs _ ih =>
    have h1 : (n == "Layout") = false := beq_eq_false_iff_ne.mpr hn
    have h2 : fs.isEmpty = false := by
      cases fs
      · exact absurd rfl hfs
      · rfl
    simp [Ty.num_fields, h1, h2, num_fields_fields_isSome fs ih]
  | tuple ts _ ih =>
    cases ts with
    | nil => rfl
    | cons t ts' => simp [Ty.num_fields, num_fields_elems_isSome _ ih]

/-- C7 witness: the scenario struct is in the supported grammar. -/
theorem C7_num_fields_total_on_grammar_witness :
    (Ty.num_fields sTy).isSome = true :=
  C7_num_fields_total_on_grammar sTy
    (TotalTy.strct ("S") [("lo", Ty.uint ("u16")), ("hi", Ty.array (Ty.uint ("u8")) 3)]
      (by decide) (List.cons_ne_nil _ _)
      (by
        intro f hf
        simp only [List.mem_cons, List.not_mem_nil, or_false] at hf
        rcases hf with rfl | rfl
        · exact TotalTy.uint ("u16")
        · exact TotalTy.array (Ty.uint ("u8")) 3 (by decide)))

/-- C8: `array_size` reports "no fixed length" exactly for a declared
length of 0 (the unsized sentinel), and registering an object of such a
type aborts with "Array must have size" instead of sizing it 0. -/
theorem C8_zero_length_sentinel :
    (∀ e : Ty, ∀ n : Nat, ((Ty.array e n).array_size = some none ↔ n = 0)) ∧
    init_pointer_space emptyConv zeroArrObj = .error ("Array must have size") := by
  constructor
  · intro e n
    simp only [Ty.array_size]
    split
    · rename_i h; simp [h]
    · rename_i h; simp [h]
  · rfl

/-- C9: the pointer constructor/accessor round-trip laws, and the default
metadata 0 when `meta` is omitted. -/
theorem C9_pointer_roundtrip (b o m : ITerm) :
    mk_pointer_base (mk_pointer b o (some m)) = b ∧
    mk_pointer_offset (mk_pointer b o (some m)) = o ∧
    mk_pointer_meta (mk_pointer b o (some m)) = m ∧
    mk_pointer_meta (mk_pointer b o none) = ITerm.lit 0 :=
  ⟨rfl, rfl, rfl, rfl⟩

/-- C10: `Box` types and ADTs whose trimmed name is "Layout" are
struct-kind yet `is_struct` rejects them (`Box` is pointer-like), so
registration takes the non-struct, non-array branch and stores length 1,
not the field count. -/
theorem C10_box_layout_register_len_one (nm : String) (bx : Bool)
    (fs gs : List (String × Ty)) :
    Ty.is_struct (Ty.adtStruct nm true fs) = false ∧
    Ty.kind_is_struct (Ty.adtStruct nm true fs) = true ∧
    Ty.is_any_ptr (Ty.adtStruct nm true fs) = true ∧
    Ty.is_struct (Ty.adtStruct ("Layout") bx gs) = false ∧
    Ty.kind_is_struct (Ty.adtStruct ("Layout") bx gs) = true ∧
    registeredLen (init_pointer_space emptyConv
        { ident := "bx", ty := Ty.adtStruct nm true fs })
        { ident := "bx", ty := Ty.adtStruct nm true fs } = some (ITerm.lit 1) ∧
    registeredLen (init_pointer_space emptyConv
        { ident := "ly", ty := Ty.adtStruct ("Layout") bx gs })
        { ident := "ly", ty := Ty.adtStruct ("Layout") bx gs } = some (ITerm.lit 1) := by
  have hbox : Ty.is_struct (Ty.adtStruct nm true fs) = false := by
    simp [Ty.is_struct, Ty.is_box]
  have hlay : Ty.is_struct (Ty.adtStruct ("Layout") bx gs) = false := by
    simp [Ty.is_struct, Ty.is_layout, Ty.name]
  refine ⟨hbox, rfl, by simp [Ty.is_any_ptr, Ty.is_box], hlay, rfl, ?_, ?_⟩
  · exact init_empty_len _ 1 (by unfold space_len_of; rw [if_neg (by simp [hbox])]; rfl)
  · exact init_empty_len _ 1 (by unfold space_len_of; rw [if_neg (by simp [hlay])]; rfl)

end MIRV
